import Mathlib

/-!
# hid-alps-hp / hid-hp-zbook : a shallow embedding

The two drivers (`src/hid-alps-hp.c`, `src/hid-hp-zbook.c`) are embedded as pure
functions.  Calls into the kernel's input and HID layers are recorded, in
program order, in a list of calls; return values of external functions
(`hid_hw_open`, `hid_parse`, ...) are parameters.  A read outside the report
buffer has no defined result and is modelled by `none`.
-/

set_option linter.unusedVariables false

namespace HidHp

/-! ## Constants -/

/-- Absolute data ReportID (`#define U1_ABSOLUTE_REPORT_ID 0x07`, both files). -/
def U1_ABSOLUTE_REPORT_ID : Nat := 0x07

/-- Source constant `MAX_TOUCHES` (both files; unused by the code). -/
def MAX_TOUCHES : Nat := 5

/-- Source constant `USB_VENDOR_ID_ALPS_HP`. -/
def USB_VENDOR_ID_ALPS_HP : Nat := 0x1FC9
/-- Source constant `HID_DEVICE_ID_ALPS_U1_HP`. -/
def HID_DEVICE_ID_ALPS_U1_HP : Nat := 0x0088
/-- Source constant `USB_VENDOR_ID_ZBOOK`. -/
def USB_VENDOR_ID_ZBOOK : Nat := 0x1FC9
/-- Source constant `USB_PRODUCT_ID_ZBOOK`. -/
def USB_PRODUCT_ID_ZBOOK : Nat := 0x0088
/-- Source constant `BLUETOOTH_VENDOR_ID_ZBOOK`. -/
def BLUETOOTH_VENDOR_ID_ZBOOK : Nat := 0x04F2
/-- Source constant `BLUETOOTH_PRODUCT_ID_ZBOOK`. -/
def BLUETOOTH_PRODUCT_ID_ZBOOK : Nat := 0x1573

/-- Event code of the kernel header `input-event-codes.h`. -/
def ABS_MT_POSITION_X : Nat := 0x35
/-- Event code of the kernel header `input-event-codes.h`. -/
def ABS_MT_POSITION_Y : Nat := 0x36
/-- Event code of the kernel header `input-event-codes.h`. -/
def ABS_MT_PRESSURE : Nat := 0x3a
/-- Tool type of the kernel header `input.h`. -/
def MT_TOOL_FINGER : Nat := 0
/-- Key code of the kernel header `input-event-codes.h`. -/
def BTN_LEFT : Nat := 0x110
/-- Key code of the kernel header `input-event-codes.h`. -/
def BTN_RIGHT : Nat := 0x111
/-- Key code of the kernel header `input-event-codes.h`. -/
def BTN_MIDDLE : Nat := 0x112
/-- Event type of the kernel header `input-event-codes.h`. -/
def EV_KEY : Nat := 0x01
/-- Event type of the kernel header `input-event-codes.h`. -/
def EV_ABS : Nat := 0x03
/-- Device property of the kernel header `input-event-codes.h`. -/
def INPUT_PROP_BUTTONPAD : Nat := 0x02
/-- Slot flag of the kernel header `input/mt.h`. -/
def INPUT_MT_POINTER : Nat := 0x0001
/-- Quirk bit `BIT(11)` of the kernel header `hid.h`. -/
def HID_QUIRK_INPUT_PER_APP : Nat := 2 ^ 11
/-- Quirk bit `BIT(29)` of the kernel header `hid.h`. -/
def HID_QUIRK_NO_INIT_REPORTS : Nat := 2 ^ 29
/-- Connect mask of the kernel header `hid.h`; only passed on to `hid_hw_start`. -/
def HID_CONNECT_DEFAULT : Nat := 0x2d
/-- Error number of the kernel header `errno-base.h`. -/
def ENOMEM : Int := 12

/-! ## Calls into the input layer made by the raw-event handlers -/

/-- One call of the raw-event handler into the input layer, with its arguments
(the `input_dev` argument is always `hdata->input` and is left out). -/
inductive input_call where
  | input_mt_slot (slot : Int)
  | input_mt_report_slot_state (tool_type : Nat) (active : Bool)
  | input_mt_report_slot_inactive
  | input_report_abs (code : Nat) (value : Int)
  | input_mt_sync_frame
  | input_report_key (code : Nat) (value : Int)
  | input_sync
  deriving DecidableEq, Repr

open input_call

/-- Whether a key report presses the key: the kernel's `input_report_key` passes
`!!value` on, so the key is pressed exactly when the value is not zero. -/
def key_pressed (value : Int) : Bool := value != 0

/-! ## Report buffer -/

/-- Load of the byte `data[k]`; `none` when `k` lies outside the buffer. -/
def u8_at (data : List Nat) (k : Nat) : Option Nat :=
  (data[k]?).map (fun b => b % 256)

/-- Kernel helper `get_unaligned_le16(p)` at `p = data + k`: the bytes `data[k]`
(low) and `data[k+1]` (high). -/
def get_unaligned_le16 (data : List Nat) (k : Nat) : Option Nat := do
  let b0 ← u8_at data k
  let b1 ← u8_at data (k + 1)
  pure (b0 ||| (b1 <<< 8))

/-! ## Driver data -/

namespace alps
/-- Source `enum dev_num` of hid-alps-hp.c. -/
inductive dev_num where
  | U1
  | UNKNOWN
  deriving DecidableEq, Repr
end alps

namespace zbook
/-- Source `enum dev_num` of hid-hp-zbook.c. -/
inductive dev_num where
  | TOUCHPAD
  | KEYBOARD
  | FN_KEY
  | PROG_BTN
  | UNKNOWN
  deriving DecidableEq, Repr
end zbook

/-- Source `struct alps_dev` (the three pointer fields are left out). -/
structure alps_dev where
  dev_type : alps.dev_num
  max_fingers : Nat
  has_sp : Nat
  sp_btn_info : Nat
  x_active_len_mm : Nat
  y_active_len_mm : Nat
  x_max : Nat
  y_max : Nat
  x_min : Nat
  y_min : Nat
  btn_cnt : Nat
  sp_btn_cnt : Nat
  deriving DecidableEq, Repr

/-- Source `struct zbook_dev` (the two pointer fields are left out). -/
structure zbook_dev where
  dev_type : zbook.dev_num
  max_fingers : Nat
  has_sp : Nat
  sp_btn_info : Nat
  x_active_len_mm : Nat
  y_active_len_mm : Nat
  x_max : Nat
  y_max : Nat
  x_min : Nat
  y_min : Nat
  btn_cnt : Nat
  deriving DecidableEq, Repr

/-! ## Raw-event handlers -/

/-- Body of the `for` loop of `alps_raw_event` / `zbook_raw_event` for contact
`i`: `contact = &data[i * 5]`, fields at `contact + 3`, `contact + 5`,
`contact[7]`. -/
def report_contact (data : List Nat) (i : Nat) : Option (List input_call) := do
  let contact := i * 5
  let x ← get_unaligned_le16 data (contact + 3)
  let y ← get_unaligned_le16 data (contact + 5)
  let c7 ← u8_at data (contact + 7)
  let z := c7 &&& 0x7F
  if z ≠ 0 then
    pure [input_mt_slot i,
          input_mt_report_slot_state MT_TOOL_FINGER true,
          input_report_abs ABS_MT_POSITION_X x,
          input_report_abs ABS_MT_POSITION_Y y,
          input_report_abs ABS_MT_PRESSURE z]
  else
    pure [input_mt_slot i, input_mt_report_slot_inactive]

/-- The loop `for (i = ...; i < max_fingers; i++)` of the raw-event handlers,
entered at index `i` with `k` iterations left. -/
def report_contacts (data : List Nat) : Nat → Nat → Option (List input_call)
  | _, 0 => some []
  | i, k + 1 => do
    let c ← report_contact data i
    let rest ← report_contacts data (i + 1) k
    pure (c ++ rest)

/-- What follows the loop in the raw-event handlers: the frame close, the three
key reports from `data[1]`, and `input_sync`. -/
def report_buttons (data : List Nat) : Option (List input_call) := do
  let b1 ← u8_at data 1
  pure [input_mt_sync_frame,
        input_report_key BTN_LEFT ((b1 &&& 0x1 : Nat) : Int),
        input_report_key BTN_RIGHT ((b1 &&& 0x2 : Nat) : Int),
        input_report_key BTN_MIDDLE ((b1 &&& 0x4 : Nat) : Int),
        input_sync]

/-- Source `alps_raw_event`: `hdata` is the driver data `hid_get_drvdata`
returns, `data` is `none` for a NULL pointer and the buffer otherwise, `size` is
the source's parameter of that name.  The result is the return value and the
calls made, in order; `none` stands for a load outside the buffer. -/
def alps_raw_event (hdata : alps_dev) (data : Option (List Nat)) (size : Int) :
    Option (Int × List input_call) :=
  match data with
  | none => some (0, [])
  | some d => do
    let id ← u8_at d 0
    if id = U1_ABSOLUTE_REPORT_ID then do
      let slots ← report_contacts d 0 hdata.max_fingers
      let tail ← report_buttons d
      pure (1, slots ++ tail)
    else
      pure (0, [])

/-- Source `zbook_raw_event` (same body as `alps_raw_event`, on `zbook_dev`);
`hdata` is the driver data `hid_get_drvdata` returns, taken to be attached. -/
def zbook_raw_event (hdata : zbook_dev) (data : Option (List Nat)) (size : Int) :
    Option (Int × List input_call) :=
  match data with
  | none => some (0, [])
  | some d => do
    let id ← u8_at d 0
    if id = U1_ABSOLUTE_REPORT_ID then do
      let slots ← report_contacts d 0 hdata.max_fingers
      let tail ← report_buttons d
      pure (1, slots ++ tail)
    else
      pure (0, [])

/-- Source `alps_post_reset`. -/
def alps_post_reset : Int := -1

/-- Source `alps_post_resume`. -/
def alps_post_resume : Int := alps_post_reset

/-- Source `zbook_post_reset`. -/
def zbook_post_reset : Int := -1

/-- Source `zbook_post_resume`. -/
def zbook_post_resume : Int := zbook_post_reset

/-! ## Machine arithmetic of the configuration path -/

/-- Subtraction on `u32`. -/
def u32_sub (a b : Nat) : Nat := (a % 2 ^ 32 + 2 ^ 32 - b % 2 ^ 32) % 2 ^ 32

/-- Conversion of a `u32` value to `int` (two's complement, as the kernel is
compiled). -/
def to_s32 (n : Nat) : Int :=
  if n % 2 ^ 32 < 2 ^ 31 then ((n % 2 ^ 32 : Nat) : Int)
  else ((n % 2 ^ 32 : Nat) : Int) - 2 ^ 32

/-! ## Calls into the HID and input layers made while binding -/

/-- One call made by probe or input_configured, with its arguments (device
arguments left out).  The three `set_*bit` calls are `__set_bit(bit, input->evbit)`,
`__set_bit(bit, input->propbit)` and `__set_bit(bit, input->keybit)`. -/
inductive hid_call where
  | hid_parse
  | hid_set_drvdata
  | hid_hw_start (connect_mask : Nat)
  | hid_hw_open
  | hid_device_io_start
  | set_evbit (bit : Nat)
  | input_set_abs_params (axis : Nat) (min max fuzz flat : Int)
  | input_abs_set_res (axis : Nat) (res : Int)
  | input_mt_init_slots (num_slots : Nat) (flags : Nat)
  | set_propbit (bit : Nat)
  | set_keybit (bit : Nat)
  | hid_device_io_stop
  | hid_hw_close
  deriving DecidableEq, Repr

open hid_call

/-- The fields of the kernel's `struct hid_device` the drivers use. -/
structure hid_device where
  vendor : Nat
  product : Nat
  phys : String
  quirks : Nat
  deriving DecidableEq, Repr

/-- The field of the kernel's `struct hid_input` the drivers use; `name` is
`none` for a NULL pointer. -/
structure hid_input where
  name : Option String
  deriving DecidableEq, Repr

/-- C library `strstr(haystack, needle)`: the tail of `haystack` starting at the
first occurrence of `needle`, `none` (NULL) when there is none. -/
def strstr : List Char → List Char → Option (List Char)
  | [], needle => if needle = [] then some [] else none
  | c :: cs, needle =>
    if needle.isPrefixOf (c :: cs) then some (c :: cs) else strstr cs needle

/-! ## hid-alps-hp.c : binding -/

/-- The `struct alps_dev` that `devm_kzalloc` returns: every field zero. -/
def alps_dev_kzalloc : alps_dev :=
  { dev_type := alps.dev_num.U1, max_fingers := 0, has_sp := 0, sp_btn_info := 0,
    x_active_len_mm := 0, y_active_len_mm := 0, x_max := 0, y_max := 0,
    x_min := 0, y_min := 0, btn_cnt := 0, sp_btn_cnt := 0 }

/-- Source `u1_init`: return value and the updated driver data. -/
def u1_init (pri_data : alps_dev) : Int × alps_dev :=
  (0, { pri_data with
          max_fingers := 5, btn_cnt := 1, has_sp := 0, x_max := 3328, y_min := 1,
          y_max := 1920, x_active_len_mm := 110, y_active_len_mm := 65 })

/-- The part of `alps_input_configured` between the test of `u1_init`'s result
and the label `exit`: the set-up of the input device from the driver data. -/
def alps_setup_input (data : alps_dev) : List hid_call :=
  [set_evbit EV_ABS,
   input_set_abs_params ABS_MT_POSITION_X (to_s32 data.x_min) (to_s32 data.x_max) 0 0,
   input_set_abs_params ABS_MT_POSITION_Y (to_s32 data.y_min) (to_s32 data.y_max) 0 0]
  ++ (if data.x_active_len_mm ≠ 0 ∧ data.y_active_len_mm ≠ 0 then
        [input_abs_set_res ABS_MT_POSITION_X
           (to_s32 (u32_sub data.x_max 1 / data.x_active_len_mm)),
         input_abs_set_res ABS_MT_POSITION_Y
           (to_s32 (u32_sub data.y_max 1 / data.y_active_len_mm))]
      else [])
  ++ [input_set_abs_params ABS_MT_PRESSURE 0 127 0 0,
      input_mt_init_slots data.max_fingers INPUT_MT_POINTER,
      set_evbit EV_KEY]
  ++ (if data.btn_cnt = 1 then [set_propbit INPUT_PROP_BUTTONPAD] else [])
  ++ (List.range data.btn_cnt).map (fun i => set_keybit (BTN_LEFT + i))

/-- Source `alps_input_configured`: `open_ret` is what `hid_hw_open` returns.
The result is the return value, the driver data afterwards and the calls made. -/
def alps_input_configured (data : alps_dev) (open_ret : Int) :
    Int × alps_dev × List hid_call :=
  if open_ret ≠ 0 then
    (open_ret, data, [hid_hw_open])
  else
    let (ret, data1) := u1_init data
    let body := if ret ≠ 0 then [] else alps_setup_input data1
    (ret, data1,
      [hid_hw_open, hid_device_io_start] ++ body ++ [hid_device_io_stop, hid_hw_close])

/-- Source `alps_input_mapping`. -/
def alps_input_mapping (hdev : hid_device) (hi : hid_input) (usage : Nat) : Int := -1

/-- Source `alps_probe`: `alloc_ok` says whether `devm_kzalloc` succeeded,
`parse_ret` and `start_ret` are what `hid_parse` and `hid_hw_start` return.  The
result is the return value, the device afterwards, the driver data attached to
it and the calls made. -/
def alps_probe (hdev : hid_device) (alloc_ok : Bool) (parse_ret start_ret : Int) :
    Int × hid_device × Option alps_dev × List hid_call :=
  if !alloc_ok then
    (-ENOMEM, hdev, none, [])
  else
    let data := alps_dev_kzalloc
    let hdev1 := { hdev with quirks := hdev.quirks ||| HID_QUIRK_NO_INIT_REPORTS }
    if parse_ret ≠ 0 then
      (parse_ret, hdev1, some data, [hid_set_drvdata, hid_parse])
    else
      let data1 := { data with dev_type :=
        if hdev.product = HID_DEVICE_ID_ALPS_U1_HP then alps.dev_num.U1
        else alps.dev_num.UNKNOWN }
      if start_ret ≠ 0 then
        (start_ret, hdev1, some data1,
          [hid_set_drvdata, hid_parse, hid_hw_start HID_CONNECT_DEFAULT])
      else
        (0, hdev1, some data1,
          [hid_set_drvdata, hid_parse, hid_hw_start HID_CONNECT_DEFAULT])

/-! ## hid-hp-zbook.c : binding -/

/-- The `struct zbook_dev` that `devm_kzalloc` returns: every field zero. -/
def zbook_dev_kzalloc : zbook_dev :=
  { dev_type := zbook.dev_num.TOUCHPAD, max_fingers := 0, has_sp := 0,
    sp_btn_info := 0, x_active_len_mm := 0, y_active_len_mm := 0, x_max := 0,
    y_max := 0, x_min := 0, y_min := 0, btn_cnt := 0 }

/-- Source `touchpad_init`: return value and the updated driver data. -/
def touchpad_init (pri_data : zbook_dev) : Int × zbook_dev :=
  (0, { pri_data with
          max_fingers := 5, btn_cnt := 1, has_sp := 0, x_max := 3328, y_min := 1,
          y_max := 1920, x_active_len_mm := 111, y_active_len_mm := 66 })

/-- The condition shared by `zbook_input_configured` and `zbook_probe`: the USB
device on a path with "input3", or the Bluetooth device. -/
def zbook_is_touchpad_interface (hdev : hid_device) : Bool :=
  (hdev.vendor == USB_VENDOR_ID_ZBOOK && hdev.product == USB_PRODUCT_ID_ZBOOK &&
    (strstr hdev.phys.data "input3".data).isSome) ||
  (hdev.vendor == BLUETOOTH_VENDOR_ID_ZBOOK && hdev.product == BLUETOOTH_PRODUCT_ID_ZBOOK)

/-- The part of `zbook_input_configured` between the test of `touchpad_init`'s
result and the end of the inner block: the set-up of the input device from the
driver data. -/
def zbook_setup_input (data : zbook_dev) : List hid_call :=
  [set_evbit EV_ABS,
   input_set_abs_params ABS_MT_POSITION_X (to_s32 data.x_min) (to_s32 data.x_max) 0 0,
   input_set_abs_params ABS_MT_POSITION_Y (to_s32 data.y_min) (to_s32 data.y_max) 0 0]
  ++ (if data.x_active_len_mm ≠ 0 ∧ data.y_active_len_mm ≠ 0 then
        [input_abs_set_res ABS_MT_POSITION_X
           (to_s32 (u32_sub data.x_max 1 / data.x_active_len_mm)),
         input_abs_set_res ABS_MT_POSITION_Y
           (to_s32 (u32_sub data.y_max 1 / data.y_active_len_mm))]
      else [])
  ++ [input_set_abs_params ABS_MT_PRESSURE 0 127 0 0,
      input_mt_init_slots data.max_fingers INPUT_MT_POINTER,
      set_evbit EV_KEY]
  ++ (if data.btn_cnt = 1 then [set_propbit INPUT_PROP_BUTTONPAD] else [])
  ++ (List.range data.btn_cnt).map (fun i => set_keybit (BTN_LEFT + i))

/-- Source `zbook_input_configured`: `data` is what `hid_get_drvdata` returns
(`none` for NULL), `open_ret` what `hid_hw_open` returns.  The result is the
return value, the driver data afterwards and the calls made; `none` stands for
the dereference of a NULL `data`. -/
def zbook_input_configured (hdev : hid_device) (data : Option zbook_dev) (open_ret : Int) :
    Option (Int × Option zbook_dev × List hid_call) :=
  if zbook_is_touchpad_interface hdev then
    match data with
    | none => none
    | some d =>
      if d.dev_type = zbook.dev_num.TOUCHPAD then
        if open_ret ≠ 0 then
          some (open_ret, some d, [hid_hw_open])
        else
          let (ret, d1) := touchpad_init d
          if ret ≠ 0 then
            some (ret, some d1,
              [hid_hw_open, hid_device_io_start, hid_device_io_stop, hid_hw_close])
          else
            some (0, some d1, [hid_hw_open, hid_device_io_start] ++ zbook_setup_input d1)
      else
        some (0, some d, [])
  else
    some (0, data, [])

/-- Source `zbook_input_mapping`; `usage` stands for the arguments the function
does not look at. -/
def zbook_input_mapping (hdev : hid_device) (hi : hid_input) (usage : Nat) : Int :=
  if (hdev.vendor == USB_VENDOR_ID_ZBOOK && hdev.product == USB_PRODUCT_ID_ZBOOK &&
        !(strstr hdev.phys.data "input3".data).isSome) ||
     (hdev.vendor == BLUETOOTH_VENDOR_ID_ZBOOK && hdev.product == BLUETOOTH_PRODUCT_ID_ZBOOK &&
        (match hi.name with
         | none => true
         | some name => !(strstr name.data "Mouse".data).isSome))
  then 0
  else -1

/-- Source `zbook_probe`: `alloc_ok` says whether `devm_kzalloc` succeeded,
`parse_ret` and `start_ret` are what `hid_parse` and `hid_hw_start` return.  The
result is the return value, the device afterwards, the driver data attached to
it (`none` when `hid_set_drvdata` was not reached) and the calls made. -/
def zbook_probe (hdev : hid_device) (alloc_ok : Bool) (parse_ret start_ret : Int) :
    Int × hid_device × Option zbook_dev × List hid_call :=
  if !alloc_ok then
    (-ENOMEM, hdev, none, [])
  else
    let data := zbook_dev_kzalloc
    if zbook_is_touchpad_interface hdev then
      let q1 := hdev.quirks ||| HID_QUIRK_NO_INIT_REPORTS
      let q2 :=
        if hdev.vendor == BLUETOOTH_VENDOR_ID_ZBOOK && hdev.product == BLUETOOTH_PRODUCT_ID_ZBOOK
        then q1 ||| HID_QUIRK_INPUT_PER_APP else q1
      let hdev1 := { hdev with quirks := q2 }
      if parse_ret ≠ 0 then
        (parse_ret, hdev1, none, [hid_parse])
      else
        let data1 := { data with dev_type :=
          if hdev.product = USB_PRODUCT_ID_ZBOOK ∨ hdev.product = BLUETOOTH_PRODUCT_ID_ZBOOK
          then zbook.dev_num.TOUCHPAD else zbook.dev_num.UNKNOWN }
        if start_ret ≠ 0 then
          (start_ret, hdev1, some data1,
            [hid_parse, hid_set_drvdata, hid_hw_start HID_CONNECT_DEFAULT])
        else
          (0, hdev1, some data1,
            [hid_parse, hid_set_drvdata, hid_hw_start HID_CONNECT_DEFAULT])
    else
      let hdev1 := { hdev with quirks := hdev.quirks ||| HID_QUIRK_INPUT_PER_APP }
      if parse_ret ≠ 0 then
        (parse_ret, hdev1, none, [hid_parse])
      else if start_ret ≠ 0 then
        (start_ret, hdev1, none, [hid_parse, hid_hw_start HID_CONNECT_DEFAULT])
      else
        (0, hdev1, none, [hid_parse, hid_hw_start HID_CONNECT_DEFAULT])

/-! ## The report layout as the specification words it -/

/-- Byte `k` of the report as a number, `0` outside the buffer. -/
def byte_at (data : List Nat) (k : Nat) : Nat := (data[k]?).getD 0

/-- X of contact `i` as specified: bytes `5i+3` (low) and `5i+4` (high). -/
def spec_contact_x (data : List Nat) (i : Nat) : Nat :=
  byte_at data (5 * i + 3) + 256 * byte_at data (5 * i + 4)

/-- Y of contact `i` as specified: bytes `5i+5` (low) and `5i+6` (high). -/
def spec_contact_y (data : List Nat) (i : Nat) : Nat :=
  byte_at data (5 * i + 5) + 256 * byte_at data (5 * i + 6)

/-- Pressure of contact `i` as specified: the low seven bits of byte `5i+7`. -/
def spec_contact_z (data : List Nat) (i : Nat) : Nat :=
  byte_at data (5 * i + 7) &&& 0x7F

/-- The calls specified for contact `i`: slot `i` selected, then either the
inactive report alone or the active finger with position and pressure. -/
def spec_contact_calls (data : List Nat) (i : Nat) : List input_call :=
  if spec_contact_z data i = 0 then
    [input_mt_slot i, input_mt_report_slot_inactive]
  else
    [input_mt_slot i,
     input_mt_report_slot_state MT_TOOL_FINGER true,
     input_report_abs ABS_MT_POSITION_X (spec_contact_x data i),
     input_report_abs ABS_MT_POSITION_Y (spec_contact_y data i),
     input_report_abs ABS_MT_PRESSURE (spec_contact_z data i)]

/-- The calls after the contact loop, from byte 1 of the report. -/
def spec_frame_end (data : List Nat) : List input_call :=
  [input_mt_sync_frame,
   input_report_key BTN_LEFT ((byte_at data 1 &&& 0x1 : Nat) : Int),
   input_report_key BTN_RIGHT ((byte_at data 1 &&& 0x2 : Nat) : Int),
   input_report_key BTN_MIDDLE ((byte_at data 1 &&& 0x4 : Nat) : Int),
   input_sync]

/-- The result `r` of a raw-event handler is a consumed report in which slot `i`
is selected exactly once, the calls `body` follow the selection directly, and
the next call selects slot `i + 1` or closes the frame. -/
def slot_report_is (r : Option (Int × List input_call)) (i : Nat)
    (body : List input_call) : Prop :=
  ∃ pre post, r = some (1, pre ++ (input_mt_slot i :: body) ++ post) ∧
    input_mt_slot i ∉ pre ∧ input_mt_slot i ∉ post ∧
    (post.head? = some (input_mt_slot ((i + 1 : Nat) : Int)) ∨
      post.head? = some input_mt_sync_frame)

/-- Driver data of a bound hid-alps-hp touchpad: zero-allocated by `alps_probe`,
then filled in by `u1_init`. -/
def alps_u1_data : alps_dev := (u1_init alps_dev_kzalloc).2

/-- Driver data of a bound hid-hp-zbook touchpad: zero-allocated by
`zbook_probe`, then filled in by `touchpad_init`. -/
def zbook_touchpad_data : zbook_dev := (touchpad_init zbook_dev_kzalloc).2

/-- The twelve bytes scenario S1 gives. -/
def S1_header : List Nat :=
  [0x07, 0x01, 0x00, 0x00, 0x00, 0x00, 0x40, 0x0D, 0x00, 0x80, 0x07, 0x20]

/-- Report of scenario S1, followed by `pad` zero bytes. -/
def S1_report (pad : Nat) : List Nat := S1_header ++ List.replicate pad 0

/-- Report of scenario S2: `07 00`, then zeros, 28 bytes in all. -/
def S2_report : List Nat := [0x07, 0x00] ++ List.replicate 26 0

/-- Report of scenario S3: `07 02 00`, contact 0 = (500, 400, 40), contact 1 =
(800, 600, 30), then zeros, 28 bytes in all. -/
def S3_report : List Nat :=
  [0x07, 0x02, 0x00, 0xF4, 0x01, 0x90, 0x01, 40, 0x20, 0x03, 0x58, 0x02, 30]
    ++ List.replicate 15 0

/-- Report of scenario S4: a report with another report ID. -/
def S4_report : List Nat := [0x03, 0xFF, 0xFF]

/-- Device of scenario S5: the USB device on the path of interface 0. -/
def S5_device : hid_device :=
  { vendor := 0x1FC9, product := 0x0088, phys := "usb-0000:00:14.0-1/input0", quirks := 0 }

/-- Input of scenario S5, named "HP Keyboard". -/
def S5_input : hid_input := { name := some "HP Keyboard" }

/-- Device of scenario S6: the Bluetooth device (its `phys` is not looked at). -/
def S6_device : hid_device :=
  { vendor := 0x04F2, product := 0x1573, phys := "", quirks := 0 }

/-- Input of scenario S6: no name. -/
def S6_input : hid_input := { name := none }

/-! ## Observations on the calls made while binding -/

/-- Whether a call sets the resolution of an absolute axis. -/
def is_abs_set_res : hid_call → Bool
  | input_abs_set_res _ _ => true
  | _ => false

/-- The buffer offsets the loop body `report_contact` loads for contact `i`, in
program order: `contact + 3` and the next byte, `contact + 5` and the next
byte, `contact[7]`, with `contact = &data[i * 5]`. -/
def contact_read_offsets (i : Nat) : List Nat :=
  [i * 5 + 3, i * 5 + 3 + 1, i * 5 + 5, i * 5 + 5 + 1, i * 5 + 7]

/-! ## Lemmas on the report buffer and the decoder -/

theorem byte_at_lt (data : List Nat) (k : Nat) (hb : ∀ b ∈ data, b < 256) :
    byte_at data k < 256 := by
  unfold byte_at
  by_cases hk : k < data.length
  · rw [List.getElem?_eq_getElem hk]
    exact hb _ (List.getElem_mem hk)
  · rw [List.getElem?_eq_none (by omega)]
    decide

theorem u8_at_eq (data : List Nat) (k : Nat) (hk : k < data.length)
    (hb : ∀ b ∈ data, b < 256) : u8_at data k = some (byte_at data k) := by
  have h := byte_at_lt data k hb
  unfold byte_at at h ⊢
  unfold u8_at
  rw [List.getElem?_eq_getElem hk] at h ⊢
  simp only [Option.map_some', Option.getD_some] at h ⊢
  rw [Nat.mod_eq_of_lt h]

theorem le16_or_eq_add (b0 b1 : Nat) (h0 : b0 < 256) : b0 ||| (b1 <<< 8) = b0 + 256 * b1 := by
  have h := Nat.mul_add_lt_is_or (i := 8) (b := b0) (by simpa using h0) b1
  rw [Nat.shiftLeft_eq, Nat.lor_comm, Nat.mul_comm b1, ← h]
  norm_num
  omega

theorem get_unaligned_le16_eq (data : List Nat) (k : Nat) (hk : k + 1 < data.length)
    (hb : ∀ b ∈ data, b < 256) :
    get_unaligned_le16 data k = some (byte_at data k + 256 * byte_at data (k + 1)) := by
  unfold get_unaligned_le16
  rw [u8_at_eq data k (by omega) hb, u8_at_eq data (k + 1) hk hb]
  simp only [Option.bind_eq_bind, Option.some_bind, Option.pure_def]
  rw [le16_or_eq_add _ _ (byte_at_lt data k hb)]

theorem report_contact_eq (data : List Nat) (i : Nat) (hk : 5 * i + 7 < data.length)
    (hb : ∀ b ∈ data, b < 256) :
    report_contact data i = some (spec_contact_calls data i) := by
  unfold report_contact spec_contact_calls spec_contact_z spec_contact_x spec_contact_y
  dsimp only
  have e3 : i * 5 + 3 = 5 * i + 3 := by omega
  have e5 : i * 5 + 5 = 5 * i + 5 := by omega
  have e7 : i * 5 + 7 = 5 * i + 7 := by omega
  rw [e3, e5, e7, get_unaligned_le16_eq data (5 * i + 3) (by omega) hb,
    get_unaligned_le16_eq data (5 * i + 5) (by omega) hb, u8_at_eq data (5 * i + 7) hk hb]
  simp only [Option.bind_eq_bind, Option.some_bind, Option.pure_def]
  have e4 : 5 * i + 3 + 1 = 5 * i + 4 := by omega
  have e6 : 5 * i + 5 + 1 = 5 * i + 6 := by omega
  rw [e4, e6]
  by_cases hz : byte_at data (5 * i + 7) &&& 0x7F = 0
  · simp [hz]
  · simp [hz]

theorem report_contacts_eq (data : List Nat) (hb : ∀ b ∈ data, b < 256) :
    ∀ (k i : Nat), 5 * (i + k) + 3 ≤ data.length →
      report_contacts data i k
        = some ((List.range' i k).flatMap (spec_contact_calls data)) := by
  intro k
  induction k with
  | zero => intro i _; simp [report_contacts]
  | succ k ih =>
    intro i h
    rw [report_contacts, report_contact_eq data i (by omega) hb, ih (i + 1) (by omega)]
    simp [List.range'_succ]

theorem report_buttons_eq (data : List Nat) (h1 : 1 < data.length)
    (hb : ∀ b ∈ data, b < 256) : report_buttons data = some (spec_frame_end data) := by
  unfold report_buttons spec_frame_end
  rw [u8_at_eq data 1 h1 hb]
  rfl

theorem u8_at_zero (data : List Nat) (b : Nat) (h0 : data[0]? = some b) :
    u8_at data 0 = some (b % 256) := by
  unfold u8_at
  rw [h0]
  rfl

theorem alps_raw_event_eq (hdata : alps_dev) (data : List Nat) (size : Int)
    (h0 : data[0]? = some 0x07) (hb : ∀ b ∈ data, b < 256)
    (hlen : 5 * hdata.max_fingers + 3 ≤ data.length) :
    alps_raw_event hdata (some data) size
      = some (1, (List.range hdata.max_fingers).flatMap (spec_contact_calls data)
                  ++ spec_frame_end data) := by
  unfold alps_raw_event
  simp only [u8_at_zero data _ h0, U1_ABSOLUTE_REPORT_ID]
  rw [report_contacts_eq data hb _ 0 (by omega), report_buttons_eq data (by omega) hb,
    List.range_eq_range']
  rfl

theorem zbook_raw_event_eq (hdata : zbook_dev) (data : List Nat) (size : Int)
    (h0 : data[0]? = some 0x07) (hb : ∀ b ∈ data, b < 256)
    (hlen : 5 * hdata.max_fingers + 3 ≤ data.length) :
    zbook_raw_event hdata (some data) size
      = some (1, (List.range hdata.max_fingers).flatMap (spec_contact_calls data)
                  ++ spec_frame_end data) := by
  unfold zbook_raw_event
  simp only [u8_at_zero data _ h0, U1_ABSOLUTE_REPORT_ID]
  rw [report_contacts_eq data hb _ 0 (by omega), report_buttons_eq data (by omega) hb,
    List.range_eq_range']
  rfl

theorem mt_slot_mem_spec_contact_calls (data : List Nat) (j : Nat) (m : Int)
    (h : input_mt_slot m ∈ spec_contact_calls data j) : m = (j : Int) := by
  unfold spec_contact_calls at h
  split at h <;> simpa using h

theorem spec_contact_calls_head (data : List Nat) (j : Nat) (l : List input_call) :
    (spec_contact_calls data j ++ l).head? = some (input_mt_slot (j : Int)) := by
  unfold spec_contact_calls
  split <;> rfl

theorem range_split (n i : Nat) (hi : i < n) :
    List.range n = List.range' 0 i ++ i :: List.range' (i + 1) (n - i - 1) := by
  have h1 : List.range' 0 i ++ List.range' (0 + i) (n - i) = List.range' 0 (n - i + i) :=
    List.range'_append_1 0 i (n - i)
  have h2 : n - i = (n - i - 1) + 1 := by omega
  rw [List.range_eq_range']
  have h3 : n - i + i = n := by omega
  rw [h3] at h1
  rw [← h1, Nat.zero_add]
  conv_lhs => rw [h2, List.range'_succ]

theorem slot_report_of_frame (data : List Nat) (n i : Nat) (hi : i < n)
    (r : Option (Int × List input_call))
    (hr : r = some (1, (List.range n).flatMap (spec_contact_calls data)
                        ++ spec_frame_end data)) :
    slot_report_is r i
      (if byte_at data (5 * i + 7) &&& 0x7F = 0 then [input_mt_report_slot_inactive]
       else [input_mt_report_slot_state MT_TOOL_FINGER true,
             input_report_abs ABS_MT_POSITION_X
               ((byte_at data (5 * i + 3) + 256 * byte_at data (5 * i + 4) : Nat) : Int),
             input_report_abs ABS_MT_POSITION_Y
               ((byte_at data (5 * i + 5) + 256 * byte_at data (5 * i + 6) : Nat) : Int),
             input_report_abs ABS_MT_PRESSURE
               ((byte_at data (5 * i + 7) &&& 0x7F : Nat) : Int)]) := by
  refine ⟨(List.range' 0 i).flatMap (spec_contact_calls data),
    (List.range' (i + 1) (n - i - 1)).flatMap (spec_contact_calls data)
      ++ spec_frame_end data, ?_, ?_, ?_, ?_⟩
  · rw [hr, range_split n i hi, List.flatMap_append, List.flatMap_cons]
    have hc : spec_contact_calls data i = input_mt_slot (i : Int) ::
        (if byte_at data (5 * i + 7) &&& 0x7F = 0 then [input_mt_report_slot_inactive]
         else [input_mt_report_slot_state MT_TOOL_FINGER true,
               input_report_abs ABS_MT_POSITION_X
                 ((byte_at data (5 * i + 3) + 256 * byte_at data (5 * i + 4) : Nat) : Int),
               input_report_abs ABS_MT_POSITION_Y
                 ((byte_at data (5 * i + 5) + 256 * byte_at data (5 * i + 6) : Nat) : Int),
               input_report_abs ABS_MT_PRESSURE
                 ((byte_at data (5 * i + 7) &&& 0x7F : Nat) : Int)]) := by
      unfold spec_contact_calls spec_contact_z spec_contact_x spec_contact_y
      split <;> rfl
    rw [hc]
    simp only [List.append_assoc]
  · intro hmem
    rw [List.mem_flatMap] at hmem
    obtain ⟨j, hj, hm⟩ := hmem
    have := mt_slot_mem_spec_contact_calls data j _ hm
    rw [List.mem_range'_1] at hj
    omega
  · intro hmem
    rw [List.mem_append] at hmem
    rcases hmem with hmem | hmem
    · rw [List.mem_flatMap] at hmem
      obtain ⟨j, hj, hm⟩ := hmem
      have := mt_slot_mem_spec_contact_calls data j _ hm
      rw [List.mem_range'_1] at hj
      omega
    · simp [spec_frame_end] at hmem
  · by_cases hlast : n - i - 1 = 0
    · right
      rw [hlast]
      rfl
    · left
      obtain ⟨k, hk⟩ := Nat.exists_eq_succ_of_ne_zero hlast
      rw [hk, List.range'_succ, List.flatMap_cons, List.append_assoc,
        spec_contact_calls_head]

theorem byte_at_append_zeros (l : List Nat) (pad k : Nat) :
    byte_at (l ++ List.replicate pad 0) k = byte_at l k := by
  unfold byte_at
  by_cases hk : k < l.length
  · rw [List.getElem?_append_left hk]
  · rw [List.getElem?_append_right (by omega), List.getElem?_eq_none (l := l) (by omega),
      List.getElem?_replicate]
    split <;> rfl

theorem spec_contact_calls_append_zeros (l : List Nat) (pad : Nat) :
    spec_contact_calls (l ++ List.replicate pad 0) = spec_contact_calls l := by
  funext i
  unfold spec_contact_calls spec_contact_z spec_contact_x spec_contact_y
  simp only [byte_at_append_zeros]

theorem spec_frame_end_append_zeros (l : List Nat) (pad : Nat) :
    spec_frame_end (l ++ List.replicate pad 0) = spec_frame_end l := by
  unfold spec_frame_end
  simp only [byte_at_append_zeros]

/-- C1: for a report buffer whose first byte is 0x07 and which holds all
`max_fingers` records (`5 * max_fingers + 3` bytes), and a contact index
`i < max_fingers`, both raw-event handlers select slot `i` once and, with
`x = data[5i+3] + 256 * data[5i+4]`, `y = data[5i+5] + 256 * data[5i+6]` and
`z = data[5i+7] & 0x7F`, report for it the inactive state alone when `z = 0`, and
otherwise the active finger, then X = `x`, Y = `y` and pressure = `z`; the next
call selects the next slot or closes the frame. -/
theorem raw_event_decodes_contact (hdata : alps_dev) (zdata : zbook_dev) (data : List Nat)
    (size : Int) (i x y z : Nat)
    (h0 : data[0]? = some 0x07) (hb : ∀ b ∈ data, b < 256)
    (hlen : 5 * hdata.max_fingers + 3 ≤ data.length) (hi : i < hdata.max_fingers)
    (hzlen : 5 * zdata.max_fingers + 3 ≤ data.length) (hzi : i < zdata.max_fingers)
    (hx : x = byte_at data (5 * i + 3) + 256 * byte_at data (5 * i + 4))
    (hy : y = byte_at data (5 * i + 5) + 256 * byte_at data (5 * i + 6))
    (hz : z = byte_at data (5 * i + 7) &&& 0x7F) :
    slot_report_is (alps_raw_event hdata (some data) size) i
        (if z = 0 then [input_mt_report_slot_inactive]
         else [input_mt_report_slot_state MT_TOOL_FINGER true,
               input_report_abs ABS_MT_POSITION_X x,
               input_report_abs ABS_MT_POSITION_Y y,
               input_report_abs ABS_MT_PRESSURE z])
    ∧ slot_report_is (zbook_raw_event zdata (some data) size) i
        (if z = 0 then [input_mt_report_slot_inactive]
         else [input_mt_report_slot_state MT_TOOL_FINGER true,
               input_report_abs ABS_MT_POSITION_X x,
               input_report_abs ABS_MT_POSITION_Y y,
               input_report_abs ABS_MT_PRESSURE z]) := by
  subst hx hy hz
  exact ⟨slot_report_of_frame data _ i hi _ (alps_raw_event_eq hdata data size h0 hb hlen),
    slot_report_of_frame data _ i hzi _ (zbook_raw_event_eq zdata data size h0 hb hzlen)⟩

/-- Witness of C1 on scenario S3: slot 0 is active at (500, 400) with pressure
40 (stated for both drivers), and slot 2 is inactive. -/
theorem raw_event_decodes_contact_S3 :
    (slot_report_is (alps_raw_event alps_u1_data (some S3_report) 28) 0
        [input_mt_report_slot_state MT_TOOL_FINGER true,
         input_report_abs ABS_MT_POSITION_X 500,
         input_report_abs ABS_MT_POSITION_Y 400,
         input_report_abs ABS_MT_PRESSURE 40]
      ∧ slot_report_is (zbook_raw_event zbook_touchpad_data (some S3_report) 28) 0
        [input_mt_report_slot_state MT_TOOL_FINGER true,
         input_report_abs ABS_MT_POSITION_X 500,
         input_report_abs ABS_MT_POSITION_Y 400,
         input_report_abs ABS_MT_PRESSURE 40])
    ∧ slot_report_is (alps_raw_event alps_u1_data (some S3_report) 28) 1
        [input_mt_report_slot_state MT_TOOL_FINGER true,
         input_report_abs ABS_MT_POSITION_X 800,
         input_report_abs ABS_MT_POSITION_Y 600,
         input_report_abs ABS_MT_PRESSURE 30]
    ∧ slot_report_is (alps_raw_event alps_u1_data (some S3_report) 28) 2
        [input_mt_report_slot_inactive]
    ∧ slot_report_is (alps_raw_event alps_u1_data (some S3_report) 28) 3
        [input_mt_report_slot_inactive]
    ∧ slot_report_is (alps_raw_event alps_u1_data (some S3_report) 28) 4
        [input_mt_report_slot_inactive] :=
  ⟨raw_event_decodes_contact alps_u1_data zbook_touchpad_data S3_report 28 0 500 400 40
      (by decide) (by decide) (by decide) (by decide) (by decide) (by decide)
      (by decide) (by decide) (by decide),
   (raw_event_decodes_contact alps_u1_data zbook_touchpad_data S3_report 28 1 800 600 30
      (by decide) (by decide) (by decide) (by decide) (by decide) (by decide)
      (by decide) (by decide) (by decide)).1,
   (raw_event_decodes_contact alps_u1_data zbook_touchpad_data S3_report 28 2 0 0 0
      (by decide) (by decide) (by decide) (by decide) (by decide) (by decide)
      (by decide) (by decide) (by decide)).1,
   (raw_event_decodes_contact alps_u1_data zbook_touchpad_data S3_report 28 3 0 0 0
      (by decide) (by decide) (by decide) (by decide) (by decide) (by decide)
      (by decide) (by decide) (by decide)).1,
   (raw_event_decodes_contact alps_u1_data zbook_touchpad_data S3_report 28 4 0 0 0
      (by decide) (by decide) (by decide) (by decide) (by decide) (by decide)
      (by decide) (by decide) (by decide)).1⟩

/-- C2: for a non-null report buffer whose first byte is not 0x07, whatever
`max_fingers` and `size` are, both raw-event handlers return 0 and make no call
into the input layer. -/
theorem raw_event_other_report_id (hdata : alps_dev) (zdata : zbook_dev) (data : List Nat)
    (size : Int) (b : Nat) (h0 : data[0]? = some b) (hb : b < 256) (h7 : b ≠ 0x07) :
    alps_raw_event hdata (some data) size = some (0, [])
    ∧ zbook_raw_event zdata (some data) size = some (0, []) := by
  unfold alps_raw_event zbook_raw_event
  simp only [u8_at_zero data b h0, Nat.mod_eq_of_lt hb, U1_ABSOLUTE_REPORT_ID]
  simp [h7]

/-- Witness of C2 on scenario S4 (`03 FF FF`). -/
theorem raw_event_other_report_id_S4 :
    alps_raw_event alps_u1_data (some S4_report) 3 = some (0, [])
    ∧ zbook_raw_event zbook_touchpad_data (some S4_report) 3 = some (0, []) :=
  raw_event_other_report_id alps_u1_data zbook_touchpad_data S4_report 3 0x03
    (by decide) (by decide) (by decide)

/-- C3, refuted as stated: the 28-byte buffer of scenario S2 handed over with
`size = 2`, too small for five contact records, is not treated as unrecognized;
both handlers return 1 and make calls into the input layer. -/
theorem raw_event_short_size_consumed :
    alps_raw_event alps_u1_data (some S2_report) 2 ≠ some (0, [])
    ∧ (alps_raw_event alps_u1_data (some S2_report) 2).map (fun r => (r.1, r.2.length))
        = some (1, 15)
    ∧ zbook_raw_event zbook_touchpad_data (some S2_report) 2 ≠ some (0, [])
    ∧ (zbook_raw_event zbook_touchpad_data (some S2_report) 2).map (fun r => (r.1, r.2.length))
        = some (1, 15) := by
  decide

/-- C3, amended: the raw-event handlers do not look at `size`.  For every buffer
whose first byte is 0x07 and which holds the bytes of `max_fingers` records, and
for every two values `size` and `size2` of the size argument, both handlers
return 1 and make exactly the calls of the decoded frame: for each contact
`0, ..., max_fingers - 1` in turn the slot selection with the inactive report
(pressure bits zero) or the finger, X, Y and pressure decoded from bytes `5i+3`
to `5i+7`, then `input_mt_sync_frame`, the three key reports from byte 1, and
`input_sync`. -/
theorem raw_event_ignores_size (hdata : alps_dev) (zdata : zbook_dev) (data : List Nat)
    (size size2 : Int) (h0 : data[0]? = some 0x07) (hb : ∀ b ∈ data, b < 256)
    (hlen : 5 * hdata.max_fingers + 3 ≤ data.length)
    (hzlen : 5 * zdata.max_fingers + 3 ≤ data.length) :
    ∃ slot_calls : Nat → List input_call,
      (∀ i, slot_calls i =
        if byte_at data (5 * i + 7) &&& 0x7F = 0 then
          [input_mt_slot i, input_mt_report_slot_inactive]
        else
          [input_mt_slot i,
           input_mt_report_slot_state MT_TOOL_FINGER true,
           input_report_abs ABS_MT_POSITION_X
             ((byte_at data (5 * i + 3) + 256 * byte_at data (5 * i + 4) : Nat) : Int),
           input_report_abs ABS_MT_POSITION_Y
             ((byte_at data (5 * i + 5) + 256 * byte_at data (5 * i + 6) : Nat) : Int),
           input_report_abs ABS_MT_PRESSURE ((byte_at data (5 * i + 7) &&& 0x7F : Nat) : Int)])
      ∧ alps_raw_event hdata (some data) size
        = some (1, (List.range hdata.max_fingers).flatMap slot_calls
            ++ [input_mt_sync_frame,
                input_report_key BTN_LEFT ((byte_at data 1 &&& 0x1 : Nat) : Int),
                input_report_key BTN_RIGHT ((byte_at data 1 &&& 0x2 : Nat) : Int),
                input_report_key BTN_MIDDLE ((byte_at data 1 &&& 0x4 : Nat) : Int),
                input_sync])
      ∧ alps_raw_event hdata (some data) size2 = alps_raw_event hdata (some data) size
      ∧ zbook_raw_event zdata (some data) size
        = some (1, (List.range zdata.max_fingers).flatMap slot_calls
            ++ [input_mt_sync_frame,
                input_report_key BTN_LEFT ((byte_at data 1 &&& 0x1 : Nat) : Int),
                input_report_key BTN_RIGHT ((byte_at data 1 &&& 0x2 : Nat) : Int),
                input_report_key BTN_MIDDLE ((byte_at data 1 &&& 0x4 : Nat) : Int),
                input_sync])
      ∧ zbook_raw_event zdata (some data) size2 = zbook_raw_event zdata (some data) size :=
  ⟨spec_contact_calls data, fun _ => rfl,
    alps_raw_event_eq hdata data size h0 hb hlen, rfl,
    zbook_raw_event_eq zdata data size h0 hb hzlen, rfl⟩

/-- Witness of the amended C3: the 28-byte buffer of scenario S3 handed over with
`size = 2` (and with `size = 28`) is decoded in full by both handlers. -/
theorem raw_event_ignores_size_S3 :
    alps_raw_event alps_u1_data (some S3_report) 2
      = some (1,
          [input_mt_slot 0, input_mt_report_slot_state MT_TOOL_FINGER true,
           input_report_abs ABS_MT_POSITION_X 500, input_report_abs ABS_MT_POSITION_Y 400,
           input_report_abs ABS_MT_PRESSURE 40,
           input_mt_slot 1, input_mt_report_slot_state MT_TOOL_FINGER true,
           input_report_abs ABS_MT_POSITION_X 800, input_report_abs ABS_MT_POSITION_Y 600,
           input_report_abs ABS_MT_PRESSURE 30,
           input_mt_slot 2, input_mt_report_slot_inactive,
           input_mt_slot 3, input_mt_report_slot_inactive,
           input_mt_slot 4, input_mt_report_slot_inactive,
           input_mt_sync_frame, input_report_key BTN_LEFT 0, input_report_key BTN_RIGHT 2,
           input_report_key BTN_MIDDLE 0, input_sync])
    ∧ alps_raw_event alps_u1_data (some S3_report) 28
      = alps_raw_event alps_u1_data (some S3_report) 2
    ∧ zbook_raw_event zbook_touchpad_data (some S3_report) 28
      = zbook_raw_event zbook_touchpad_data (some S3_report) 2
    ∧ zbook_raw_event zbook_touchpad_data (some S3_report) 2
      = alps_raw_event alps_u1_data (some S3_report) 2 := by
  obtain ⟨slot_calls, hs, ha, ha2, hz, hz2⟩ :=
    raw_event_ignores_size alps_u1_data zbook_touchpad_data S3_report 2 28
      (by decide) (by decide) (by decide) (by decide)
  refine ⟨?_, ha2, hz2, ?_⟩
  · rw [ha]
    have e : alps_u1_data.max_fingers = 5 := rfl
    simp only [e, List.range, List.range.loop, List.flatMap_cons, List.flatMap_nil, hs]
    decide
  · rw [ha, hz]
    rfl

/-- C4, refuted as stated: on the report of scenario S1 (28 bytes), neither
handler reports slot 0 active at x = 3392, y = 1920 with pressure 32. -/
theorem S1_scenario_refuted :
    ¬ slot_report_is (alps_raw_event alps_u1_data (some (S1_report 16)) 28) 0
        [input_mt_report_slot_state MT_TOOL_FINGER true,
         input_report_abs ABS_MT_POSITION_X 3392,
         input_report_abs ABS_MT_POSITION_Y 1920,
         input_report_abs ABS_MT_PRESSURE 32]
    ∧ ¬ slot_report_is (zbook_raw_event zbook_touchpad_data (some (S1_report 16)) 28) 0
        [input_mt_report_slot_state MT_TOOL_FINGER true,
         input_report_abs ABS_MT_POSITION_X 3392,
         input_report_abs ABS_MT_POSITION_Y 1920,
         input_report_abs ABS_MT_PRESSURE 32] := by
  have key : ∀ r : Option (Int × List input_call),
      (∀ calls, r = some (1, calls) → input_report_abs ABS_MT_POSITION_X 3392 ∉ calls) →
      ¬ slot_report_is r 0
        [input_mt_report_slot_state MT_TOOL_FINGER true,
         input_report_abs ABS_MT_POSITION_X 3392,
         input_report_abs ABS_MT_POSITION_Y 1920,
         input_report_abs ABS_MT_PRESSURE 32] := by
    intro r hr h
    obtain ⟨pre, post, hcalls, _⟩ := h
    exact hr _ hcalls (by simp)
  constructor
  · apply key
    intro calls h
    have e : alps_raw_event alps_u1_data (some (S1_report 16)) 28 = some (1,
        [input_mt_slot 0, input_mt_report_slot_state MT_TOOL_FINGER true,
         input_report_abs ABS_MT_POSITION_X 0, input_report_abs ABS_MT_POSITION_Y 16384,
         input_report_abs ABS_MT_PRESSURE 13,
         input_mt_slot 1, input_mt_report_slot_inactive,
         input_mt_slot 2, input_mt_report_slot_inactive,
         input_mt_slot 3, input_mt_report_slot_inactive,
         input_mt_slot 4, input_mt_report_slot_inactive,
         input_mt_sync_frame, input_report_key BTN_LEFT 1, input_report_key BTN_RIGHT 0,
         input_report_key BTN_MIDDLE 0, input_sync]) := by decide
    rw [e] at h
    cases h
    decide
  · apply key
    intro calls h
    have e : zbook_raw_event zbook_touchpad_data (some (S1_report 16)) 28 = some (1,
        [input_mt_slot 0, input_mt_report_slot_state MT_TOOL_FINGER true,
         input_report_abs ABS_MT_POSITION_X 0, input_report_abs ABS_MT_POSITION_Y 16384,
         input_report_abs ABS_MT_PRESSURE 13,
         input_mt_slot 1, input_mt_report_slot_inactive,
         input_mt_slot 2, input_mt_report_slot_inactive,
         input_mt_slot 3, input_mt_report_slot_inactive,
         input_mt_slot 4, input_mt_report_slot_inactive,
         input_mt_sync_frame, input_report_key BTN_LEFT 1, input_report_key BTN_RIGHT 0,
         input_report_key BTN_MIDDLE 0, input_sync]) := by decide
    rw [e] at h
    cases h
    decide

/-- C4, amended: on the report of scenario S1 followed by at least 16 zero bytes
(28 bytes or more in all), with `max_fingers = 5`, both handlers return 1 and
report slot 0 active at x = 0, y = 16384 (0x4000) with pressure 13 (0x0D), slots 1
to 4 inactive, then close the multi-touch frame, report BTN_LEFT pressed and
BTN_RIGHT and BTN_MIDDLE released, and emit one `input_sync`. -/
theorem S1_scenario_decoded (hdata : alps_dev) (zdata : zbook_dev) (pad : Nat) (size : Int)
    (hmf : hdata.max_fingers = 5) (hzmf : zdata.max_fingers = 5) (hpad : 16 ≤ pad) :
    ∃ calls, alps_raw_event hdata (some (S1_report pad)) size = some (1, calls)
      ∧ zbook_raw_event zdata (some (S1_report pad)) size = some (1, calls)
      ∧ calls =
        [input_mt_slot 0, input_mt_report_slot_state MT_TOOL_FINGER true,
         input_report_abs ABS_MT_POSITION_X 0, input_report_abs ABS_MT_POSITION_Y 16384,
         input_report_abs ABS_MT_PRESSURE 13,
         input_mt_slot 1, input_mt_report_slot_inactive,
         input_mt_slot 2, input_mt_report_slot_inactive,
         input_mt_slot 3, input_mt_report_slot_inactive,
         input_mt_slot 4, input_mt_report_slot_inactive,
         input_mt_sync_frame, input_report_key BTN_LEFT 1, input_report_key BTN_RIGHT 0,
         input_report_key BTN_MIDDLE 0, input_sync]
      ∧ key_pressed 1 = true ∧ key_pressed 0 = false := by
  have h0 : (S1_report pad)[0]? = some 0x07 := by
    unfold S1_report
    rw [List.getElem?_append_left (by decide)]
    rfl
  have hb : ∀ b ∈ S1_report pad, b < 256 := by
    intro b hmem
    unfold S1_report at hmem
    rw [List.mem_append] at hmem
    rcases hmem with hmem | hmem
    · revert b
      decide
    · rw [List.mem_replicate] at hmem
      omega
  have hl : (S1_report pad).length = 12 + pad := by
    simp only [S1_report, S1_header, List.length_append, List.length_replicate,
      List.length_cons, List.length_nil]
  refine ⟨_, alps_raw_event_eq hdata _ size h0 hb (by rw [hl, hmf]; omega), ?_, ?_, rfl, rfl⟩
  · rw [zbook_raw_event_eq zdata _ size h0 hb (by rw [hl, hzmf]; omega), hmf, hzmf]
  · rw [hmf]
    unfold S1_report
    rw [spec_contact_calls_append_zeros, spec_frame_end_append_zeros]
    decide

/-- Witness of the amended C4: the 28-byte report of scenario S1. -/
theorem S1_scenario_decoded_28 :
    ∃ calls, alps_raw_event alps_u1_data (some (S1_report 16)) 28 = some (1, calls)
      ∧ zbook_raw_event zbook_touchpad_data (some (S1_report 16)) 28 = some (1, calls)
      ∧ calls =
        [input_mt_slot 0, input_mt_report_slot_state MT_TOOL_FINGER true,
         input_report_abs ABS_MT_POSITION_X 0, input_report_abs ABS_MT_POSITION_Y 16384,
         input_report_abs ABS_MT_PRESSURE 13,
         input_mt_slot 1, input_mt_report_slot_inactive,
         input_mt_slot 2, input_mt_report_slot_inactive,
         input_mt_slot 3, input_mt_report_slot_inactive,
         input_mt_slot 4, input_mt_report_slot_inactive,
         input_mt_sync_frame, input_report_key BTN_LEFT 1, input_report_key BTN_RIGHT 0,
         input_report_key BTN_MIDDLE 0, input_sync]
      ∧ key_pressed 1 = true ∧ key_pressed 0 = false :=
  S1_scenario_decoded alps_u1_data zbook_touchpad_data 16 28 (by decide) (by decide)
    (by decide)

theorem strstr_isSome_iff (hay needle : List Char) :
    (strstr hay needle).isSome = true ↔ needle <:+: hay := by
  induction hay with
  | nil =>
    unfold strstr
    by_cases h : needle = []
    · simp [h]
    · simp [h]
  | cons c cs ih =>
    unfold strstr
    by_cases hp : needle.isPrefixOf (c :: cs) = true
    · rw [if_pos hp]
      simp only [Option.isSome_some, true_iff]
      exact (List.isPrefixOf_iff_prefix.mp hp).isInfix
    · rw [if_neg hp, ih, List.infix_cons_iff]
      have hn : ¬ needle <+: c :: cs := fun h => hp (List.isPrefixOf_iff_prefix.mpr h)
      tauto

/-- C6, refuted as stated: for the Bluetooth device 0x04F2/0x1573 of scenario
S6, with no interface name, `zbook_input_mapping` returns 0 (default mapping),
not -1; so it does with a name that does not contain "Mouse". -/
theorem zbook_input_mapping_bluetooth_unnamed :
    zbook_input_mapping S6_device S6_input 0 = 0
    ∧ zbook_input_mapping S6_device S6_input 0 ≠ -1
    ∧ zbook_input_mapping S6_device { name := some "HP Keyboard" } 0 = 0 := by
  decide

/-- C6, amended: for the Bluetooth device 0x04F2/0x1573, `zbook_input_mapping`
returns 0 (default usage mapping) when the interface name is absent or does not
contain "Mouse", and returns -1 (mapping suppressed) when the name contains
"Mouse", for every usage. -/
theorem zbook_input_mapping_bluetooth (hdev : hid_device) (hi : hid_input) (usage : Nat)
    (hv : hdev.vendor = BLUETOOTH_VENDOR_ID_ZBOOK)
    (hp : hdev.product = BLUETOOTH_PRODUCT_ID_ZBOOK) :
    (hi.name = none → zbook_input_mapping hdev hi usage = 0)
    ∧ (∀ name, hi.name = some name → ¬ "Mouse".data <:+: name.data →
        zbook_input_mapping hdev hi usage = 0)
    ∧ (∀ name, hi.name = some name → "Mouse".data <:+: name.data →
        zbook_input_mapping hdev hi usage = -1) := by
  refine ⟨?_, ?_, ?_⟩
  · intro hn
    simp [zbook_input_mapping, hv, hp, hn]
  · intro name hn hnot
    have hs : (strstr name.data "Mouse".data).isSome = false := by
      rw [← Bool.not_eq_true, strstr_isSome_iff]
      exact hnot
    simp [zbook_input_mapping, hv, hp, hn, hs]
  · intro name hn hin
    have hs : (strstr name.data "Mouse".data).isSome = true :=
      (strstr_isSome_iff _ _).mpr hin
    simp [zbook_input_mapping, hv, hp, hn, hs, USB_VENDOR_ID_ZBOOK,
      BLUETOOTH_VENDOR_ID_ZBOOK]

/-- Witness of the amended C6: scenario S6 (no name) keeps the default mapping;
the same device with an interface named "HP Mouse" has it suppressed. -/
theorem zbook_input_mapping_bluetooth_S6 :
    zbook_input_mapping S6_device S6_input 0 = 0
    ∧ zbook_input_mapping S6_device { name := some "HP Mouse" } 0 = -1 :=
  ⟨(zbook_input_mapping_bluetooth S6_device S6_input 0 rfl rfl).1 rfl,
   (zbook_input_mapping_bluetooth S6_device { name := some "HP Mouse" } 0 rfl rfl).2.2
      "HP Mouse" rfl (by decide)⟩

theorem quirk_or_and_self (q : Nat) :
    (q ||| HID_QUIRK_INPUT_PER_APP) &&& HID_QUIRK_INPUT_PER_APP = HID_QUIRK_INPUT_PER_APP := by
  apply Nat.eq_of_testBit_eq
  intro i
  rw [Nat.testBit_and, Nat.testBit_or]
  cases q.testBit i <;> cases HID_QUIRK_INPUT_PER_APP.testBit i <;> rfl

theorem quirk_or_and_other (q : Nat) :
    (q ||| HID_QUIRK_INPUT_PER_APP) &&& HID_QUIRK_NO_INIT_REPORTS
      = q &&& HID_QUIRK_NO_INIT_REPORTS := by
  apply Nat.eq_of_testBit_eq
  intro i
  rw [Nat.testBit_and, Nat.testBit_or, Nat.testBit_and, HID_QUIRK_INPUT_PER_APP,
    HID_QUIRK_NO_INIT_REPORTS, Nat.testBit_two_pow, Nat.testBit_two_pow]
  by_cases h29 : 29 = i
  · subst h29
    simp
  · simp [h29]

/-- C7: for the USB device 0x1FC9/0x0088 and every path `phys`,
`zbook_input_mapping` returns -1 exactly when `phys` contains "input3"; for
every other `phys` it returns 0 and `zbook_probe` (its allocation succeeding,
whatever `hid_parse` and `hid_hw_start` return) sets the quirk
HID_QUIRK_INPUT_PER_APP and leaves HID_QUIRK_NO_INIT_REPORTS as it was. -/
theorem zbook_usb_mapping_and_probe (hdev : hid_device) (hi : hid_input) (usage : Nat)
    (parse_ret start_ret : Int)
    (hv : hdev.vendor = USB_VENDOR_ID_ZBOOK) (hp : hdev.product = USB_PRODUCT_ID_ZBOOK) :
    (zbook_input_mapping hdev hi usage = -1 ↔ "input3".data <:+: hdev.phys.data)
    ∧ (¬ "input3".data <:+: hdev.phys.data →
        zbook_input_mapping hdev hi usage = 0
        ∧ (zbook_probe hdev true parse_ret start_ret).2.1.quirks
            = hdev.quirks ||| HID_QUIRK_INPUT_PER_APP
        ∧ (zbook_probe hdev true parse_ret start_ret).2.1.quirks &&& HID_QUIRK_INPUT_PER_APP
            = HID_QUIRK_INPUT_PER_APP
        ∧ (zbook_probe hdev true parse_ret start_ret).2.1.quirks &&& HID_QUIRK_NO_INIT_REPORTS
            = hdev.quirks &&& HID_QUIRK_NO_INIT_REPORTS) := by
  have hcase : ∀ b : Bool, (strstr hdev.phys.data "input3".data).isSome = b →
      zbook_input_mapping hdev hi usage = if b then -1 else 0 := by
    intro b hb
    cases b <;>
      simp [zbook_input_mapping, hv, hp, hb, USB_VENDOR_ID_ZBOOK, BLUETOOTH_VENDOR_ID_ZBOOK]
  constructor
  · rw [← strstr_isSome_iff]
    cases hb : (strstr hdev.phys.data "input3".data).isSome
    · rw [hcase false hb]
      simp
    · rw [hcase true hb]
      simp
  · intro hnot
    have hs : (strstr hdev.phys.data "input3".data).isSome = false := by
      rw [← Bool.not_eq_true, strstr_isSome_iff]
      exact hnot
    have hq : (zbook_probe hdev true parse_ret start_ret).2.1.quirks
        = hdev.quirks ||| HID_QUIRK_INPUT_PER_APP := by
      have ht : zbook_is_touchpad_interface hdev = false := by
        simp [zbook_is_touchpad_interface, hv, hp, hs, USB_VENDOR_ID_ZBOOK,
          BLUETOOTH_VENDOR_ID_ZBOOK]
      unfold zbook_probe
      simp only [ht]
      by_cases h1 : parse_ret ≠ 0
      · simp [h1]
      · by_cases h2 : start_ret ≠ 0
        · simp [h1, h2]
        · simp [h1, h2]
    refine ⟨by simpa using hcase false hs, hq, ?_, ?_⟩
    · rw [hq, quirk_or_and_self]
    · rw [hq, quirk_or_and_other]

/-- Witness of C7 on scenario S5: on the path of interface 0 the default
mapping is kept and probe requests the input-per-application quirk only. -/
theorem zbook_usb_mapping_and_probe_S5 :
    zbook_input_mapping S5_device S5_input 0 = 0
    ∧ (zbook_probe S5_device true 0 0).2.1.quirks
        = S5_device.quirks ||| HID_QUIRK_INPUT_PER_APP
    ∧ (zbook_probe S5_device true 0 0).2.1.quirks &&& HID_QUIRK_INPUT_PER_APP
        = HID_QUIRK_INPUT_PER_APP
    ∧ (zbook_probe S5_device true 0 0).2.1.quirks &&& HID_QUIRK_NO_INIT_REPORTS
        = S5_device.quirks &&& HID_QUIRK_NO_INIT_REPORTS :=
  (zbook_usb_mapping_and_probe S5_device S5_input 0 0 0 rfl rfl).2
    (fun h => absurd ((strstr_isSome_iff _ _).mpr h) (by decide))

/-! ## Configuration of the input device: claims C8 and C9 -/

/-- C8, evaluated where the code departs from it: for the Bluetooth touchpad
bound by a successful `zbook_probe`, with `hid_hw_open` returning 0,
`zbook_input_configured` returns 0 after `hid_hw_open` and
`hid_device_io_start` without calling `hid_device_io_stop` or `hid_hw_close`;
`alps_input_configured` on the same path ends with both calls, in that order,
and when `hid_hw_open` fails both functions return its error code after that
one call. -/
theorem zbook_input_configured_leaves_transport_open :
    ∃ calls,
      zbook_input_configured S6_device (zbook_probe S6_device true 0 0).2.2.1 0
        = some (0, some zbook_touchpad_data, calls)
      ∧ calls =
          [hid_hw_open, hid_device_io_start,
           set_evbit EV_ABS,
           input_set_abs_params ABS_MT_POSITION_X 0 3328 0 0,
           input_set_abs_params ABS_MT_POSITION_Y 1 1920 0 0,
           input_abs_set_res ABS_MT_POSITION_X 29,
           input_abs_set_res ABS_MT_POSITION_Y 29,
           input_set_abs_params ABS_MT_PRESSURE 0 127 0 0,
           input_mt_init_slots 5 INPUT_MT_POINTER,
           set_evbit EV_KEY,
           set_propbit INPUT_PROP_BUTTONPAD,
           set_keybit BTN_LEFT]
      ∧ hid_hw_open ∈ calls ∧ hid_device_io_start ∈ calls
      ∧ hid_device_io_stop ∉ calls ∧ hid_hw_close ∉ calls
      ∧ alps_input_configured alps_dev_kzalloc 0
        = (0, alps_u1_data,
            [hid_hw_open, hid_device_io_start] ++ alps_setup_input alps_u1_data
              ++ [hid_device_io_stop, hid_hw_close])
      ∧ alps_input_configured alps_dev_kzalloc (-5) = (-5, alps_dev_kzalloc, [hid_hw_open])
      ∧ zbook_input_configured S6_device (zbook_probe S6_device true 0 0).2.2.1 (-5)
        = some (-5, (zbook_probe S6_device true 0 0).2.2.1, [hid_hw_open]) :=
  ⟨_, by decide, rfl, by decide, by decide, by decide, by decide, by decide, by decide,
    by decide⟩

theorem to_s32_of_lt (n : Nat) (h : n < 2 ^ 31) : to_s32 n = (n : Int) := by
  unfold to_s32
  have h1 : n % 2 ^ 32 = n := Nat.mod_eq_of_lt (by omega)
  rw [h1, if_pos h]

theorem u32_sub_one (x : Nat) (h1 : 1 ≤ x) (h2 : x ≤ 2 ^ 31) : u32_sub x 1 = x - 1 := by
  unfold u32_sub
  omega

theorem res_value (x a : Nat) (h1 : 1 ≤ x) (h2 : x ≤ 2 ^ 31) :
    to_s32 (u32_sub x 1 / a) = (((x - 1) / a : Nat) : Int) := by
  rw [u32_sub_one x h1 h2]
  apply to_s32_of_lt
  have := Nat.div_le_self (x - 1) a
  omega

/-- C9: with the driver data's `x_max` and `y_max` between 1 and 2^31 (so that
neither the `u32` subtraction nor the conversion to `int` wraps), the set-up of
`alps_input_configured` and of `zbook_input_configured` sets the resolution of
ABS_MT_POSITION_X to `(x_max - 1) / x_active_len_mm` and that of
ABS_MT_POSITION_Y to `(y_max - 1) / y_active_len_mm` (truncating division) when
both active lengths are positive, and sets no resolution otherwise.  On the
zero-allocated driver data of probe the two functions set X in [0, 3328], Y in
[1, 1920], pressure in [0, 127], and resolutions 30 and 29 (hid-alps-hp), 29 and
29 (hid-hp-zbook). -/
theorem setup_input_resolution (d : alps_dev) (z : zbook_dev)
    (hx1 : 1 ≤ d.x_max) (hx2 : d.x_max ≤ 2 ^ 31) (hy1 : 1 ≤ d.y_max) (hy2 : d.y_max ≤ 2 ^ 31)
    (hzx1 : 1 ≤ z.x_max) (hzx2 : z.x_max ≤ 2 ^ 31)
    (hzy1 : 1 ≤ z.y_max) (hzy2 : z.y_max ≤ 2 ^ 31) :
    (alps_setup_input d).filter is_abs_set_res
      = (if 0 < d.x_active_len_mm ∧ 0 < d.y_active_len_mm then
          [input_abs_set_res ABS_MT_POSITION_X (((d.x_max - 1) / d.x_active_len_mm : Nat) : Int),
           input_abs_set_res ABS_MT_POSITION_Y (((d.y_max - 1) / d.y_active_len_mm : Nat) : Int)]
         else [])
    ∧ (zbook_setup_input z).filter is_abs_set_res
      = (if 0 < z.x_active_len_mm ∧ 0 < z.y_active_len_mm then
          [input_abs_set_res ABS_MT_POSITION_X (((z.x_max - 1) / z.x_active_len_mm : Nat) : Int),
           input_abs_set_res ABS_MT_POSITION_Y (((z.y_max - 1) / z.y_active_len_mm : Nat) : Int)]
         else [])
    ∧ alps_input_configured alps_dev_kzalloc 0
      = (0, alps_u1_data,
          [hid_hw_open, hid_device_io_start,
           set_evbit EV_ABS,
           input_set_abs_params ABS_MT_POSITION_X 0 3328 0 0,
           input_set_abs_params ABS_MT_POSITION_Y 1 1920 0 0,
           input_abs_set_res ABS_MT_POSITION_X ((3327 / 110 : Nat) : Int),
           input_abs_set_res ABS_MT_POSITION_Y ((1919 / 65 : Nat) : Int),
           input_set_abs_params ABS_MT_PRESSURE 0 127 0 0,
           input_mt_init_slots 5 INPUT_MT_POINTER,
           set_evbit EV_KEY,
           set_propbit INPUT_PROP_BUTTONPAD,
           set_keybit BTN_LEFT,
           hid_device_io_stop, hid_hw_close])
    ∧ zbook_input_configured S6_device (zbook_probe S6_device true 0 0).2.2.1 0
      = some (0, some zbook_touchpad_data,
          [hid_hw_open, hid_device_io_start,
           set_evbit EV_ABS,
           input_set_abs_params ABS_MT_POSITION_X 0 3328 0 0,
           input_set_abs_params ABS_MT_POSITION_Y 1 1920 0 0,
           input_abs_set_res ABS_MT_POSITION_X ((3327 / 111 : Nat) : Int),
           input_abs_set_res ABS_MT_POSITION_Y ((1919 / 66 : Nat) : Int),
           input_set_abs_params ABS_MT_PRESSURE 0 127 0 0,
           input_mt_init_slots 5 INPUT_MT_POINTER,
           set_evbit EV_KEY,
           set_propbit INPUT_PROP_BUTTONPAD,
           set_keybit BTN_LEFT])
    ∧ (3327 / 110 = 30 ∧ 1919 / 65 = 29 ∧ 3327 / 111 = 29 ∧ 1919 / 66 = 29) := by
  have hkeys : ∀ n : Nat,
      ((List.range n).map (fun i => set_keybit (BTN_LEFT + i))).filter is_abs_set_res = [] := by
    intro n
    rw [List.filter_eq_nil_iff]
    intro c hc
    rw [List.mem_map] at hc
    obtain ⟨i, _, rfl⟩ := hc
    simp [is_abs_set_res]
  refine ⟨?_, ?_, by decide, by decide, by decide⟩
  · unfold alps_setup_input
    simp only [List.filter_append, hkeys, res_value d.x_max _ hx1 hx2,
      res_value d.y_max _ hy1 hy2, Nat.pos_iff_ne_zero]
    by_cases h : d.x_active_len_mm ≠ 0 ∧ d.y_active_len_mm ≠ 0
    · by_cases hbtn : d.btn_cnt = 1 <;> simp [h, hbtn, is_abs_set_res, List.filter]
    · by_cases hbtn : d.btn_cnt = 1 <;> simp [h, hbtn, is_abs_set_res, List.filter]
  · unfold zbook_setup_input
    simp only [List.filter_append, hkeys, res_value z.x_max _ hzx1 hzx2,
      res_value z.y_max _ hzy1 hzy2, Nat.pos_iff_ne_zero]
    by_cases h : z.x_active_len_mm ≠ 0 ∧ z.y_active_len_mm ≠ 0
    · by_cases hbtn : z.btn_cnt = 1 <;> simp [h, hbtn, is_abs_set_res, List.filter]
    · by_cases hbtn : z.btn_cnt = 1 <;> simp [h, hbtn, is_abs_set_res, List.filter]

/-- Witness of C9 at the driver data the two init functions write. -/
theorem setup_input_resolution_profiles :
    (alps_setup_input alps_u1_data).filter is_abs_set_res
      = [input_abs_set_res ABS_MT_POSITION_X 30, input_abs_set_res ABS_MT_POSITION_Y 29]
    ∧ (zbook_setup_input zbook_touchpad_data).filter is_abs_set_res
      = [input_abs_set_res ABS_MT_POSITION_X 29, input_abs_set_res ABS_MT_POSITION_Y 29] :=
  ⟨(setup_input_resolution alps_u1_data zbook_touchpad_data (by decide) (by decide)
      (by decide) (by decide) (by decide) (by decide) (by decide) (by decide)).1,
   (setup_input_resolution alps_u1_data zbook_touchpad_data (by decide) (by decide)
      (by decide) (by decide) (by decide) (by decide) (by decide) (by decide)).2.1⟩

/-! ## Layout of the contact records: claim C10 -/

theorem mem_contact_read_offsets (i k : Nat) :
    k ∈ contact_read_offsets i ↔ 5 * i + 3 ≤ k ∧ k ≤ 5 * i + 7 := by
  unfold contact_read_offsets
  simp only [List.mem_cons, List.mem_singleton, List.not_mem_nil, or_false]
  omega

theorem report_contact_congr (data data2 : List Nat) (i : Nat)
    (h : ∀ k ∈ contact_read_offsets i, data[k]? = data2[k]?) :
    report_contact data i = report_contact data2 i := by
  have h3 := h (i * 5 + 3) (by simp [contact_read_offsets])
  have h4 := h (i * 5 + 3 + 1) (by simp [contact_read_offsets])
  have h5 := h (i * 5 + 5) (by simp [contact_read_offsets])
  have h6 := h (i * 5 + 5 + 1) (by simp [contact_read_offsets])
  have h7 := h (i * 5 + 7) (by simp [contact_read_offsets])
  unfold report_contact get_unaligned_le16 u8_at
  simp only [h3, h4, h5, h6, h7]

/-- C10, refuted as stated: with `max_fingers = 5` there is no contact index `i`
with `i + 1 < max_fingers` whose loaded byte offsets share an index with those
of contact `i + 1`; contact 0 loads offsets 3 to 7 and contact 1 offsets 8 to
12. -/
theorem contact_fields_no_overlap :
    alps_u1_data.max_fingers = 5 ∧ zbook_touchpad_data.max_fingers = 5
    ∧ contact_read_offsets 0 = [3, 4, 5, 6, 7]
    ∧ contact_read_offsets 1 = [8, 9, 10, 11, 12]
    ∧ ¬ ∃ i, i + 1 < 5 ∧ ∃ k, k ∈ contact_read_offsets i ∧ k ∈ contact_read_offsets (i + 1) := by
  refine ⟨rfl, rfl, rfl, rfl, ?_⟩
  rintro ⟨i, _, k, h1, h2⟩
  rw [mem_contact_read_offsets] at h1 h2
  omega

/-- C10, amended: with record stride 5 and offsets 3, 5 and 7 the bytes decoded
for distinct contacts do not overlap.  Contact `i` is decoded from the byte
offsets `5i+3` to `5i+7` alone (two buffers that agree there give the same
calls), and these are disjoint from the offsets of every other contact `j`; the
records lie back to back after a three-byte header. -/
theorem contact_fields_disjoint (i j : Nat) (hij : i ≠ j) :
    (∀ k, k ∈ contact_read_offsets i ↔ 5 * i + 3 ≤ k ∧ k ≤ 5 * i + 7)
    ∧ (∀ k, k ∈ contact_read_offsets i → k ∉ contact_read_offsets j)
    ∧ (∀ data data2 : List Nat, (∀ k ∈ contact_read_offsets i, data[k]? = data2[k]?) →
        report_contact data i = report_contact data2 i) := by
  refine ⟨mem_contact_read_offsets i, ?_, fun data data2 h => report_contact_congr data data2 i h⟩
  intro k h1 h2
  rw [mem_contact_read_offsets] at h1 h2
  omega

/-- Witness of the amended C10 for contacts 0 and 1. -/
theorem contact_fields_disjoint_0_1 :
    (∀ k, k ∈ contact_read_offsets 0 ↔ 5 * 0 + 3 ≤ k ∧ k ≤ 5 * 0 + 7)
    ∧ (∀ k, k ∈ contact_read_offsets 0 → k ∉ contact_read_offsets 1)
    ∧ (∀ data data2 : List Nat, (∀ k ∈ contact_read_offsets 0, data[k]? = data2[k]?) →
        report_contact data 0 = report_contact data2 0) :=
  contact_fields_disjoint 0 1 (by decide)

end HidHp
